import Mathlib

/-!
# Deployment migration `migrations/2_deploy_contracts.js`

A shallow embedding of the Truffle migration that deploys `FonkyBat` and
`FonkyBatFactory` and hands ownership of the former to the latter.

* `process.env` is a record of optional strings (`none` is `undefined`).
* The Truffle framework (the `deployer`, the contract abstractions obtained
  through `artifacts.require` and the deployed instance) is not part of the
  repository: it is a parameter `Truffle σ ε η` whose operations act on an
  arbitrary framework state `σ`, may fail with an arbitrary error `ε` and
  hand out instances of an arbitrary type `η`.
* A run records every interaction with the framework, in program order and
  together with its outcome, in a trace. The interactions are the calls
  `deployer.deploy(...)`, `FonkyBat.deployed()` and `transferOwnership(...)`
  and the reads of the accessor property `address` of a contract abstraction,
  which the framework evaluates and which throws when the contract has no
  address on the network.
-/

namespace FonkyBats

/-! ## Environment flags (lines 4-11) -/

/-- The value of `process.env.X`: `none` when the variable is unset
(`undefined`), `some s` when it is set to the string `s`. -/
abbrev EnvValue := Option String

/-- JavaScript truthiness on such a value: `undefined` and the empty string are
falsy, every other string is truthy. -/
def truthy : EnvValue → Bool
  | none => false
  | some s => decide (s ≠ "")

/-- The JavaScript operator `a || b`: `a` when `a` is truthy, else `b`. -/
def jsOr (a b : EnvValue) : EnvValue :=
  if truthy a then a else b

/-- The three variables the migration reads from `process.env`. -/
structure ProcessEnv where
  DEPLOY_ALL : EnvValue
  DEPLOY_FONKYBATS : EnvValue
  DEPLOY_FONKYBATS_SALE : EnvValue

/-- Line 6: `const DEPLOY_ALL = process.env.DEPLOY_ALL;` -/
def DEPLOY_ALL (env : ProcessEnv) : EnvValue :=
  env.DEPLOY_ALL

/-- Line 10: `const DEPLOY_FONKYBATS = process.env.DEPLOY_FONKYBATS || DEPLOY_ALL;` -/
def DEPLOY_FONKYBATS (env : ProcessEnv) : EnvValue :=
  jsOr env.DEPLOY_FONKYBATS (DEPLOY_ALL env)

/-- Line 11:
`const DEPLOY_FONKYBATS_SALE = process.env.DEPLOY_FONKYBATS_SALE || DEPLOY_ALL;` -/
def DEPLOY_FONKYBATS_SALE (env : ProcessEnv) : EnvValue :=
  jsOr env.DEPLOY_FONKYBATS_SALE (DEPLOY_ALL env)

/-! ## Proxy registry address (lines 16-21) -/

/-- Lines 16-21: the value of `proxyRegistryAddress` after the `if`/`else`. -/
def proxyRegistryAddress (network : String) : String :=
  if network = "rinkeby" then
    "0xf57b2c51ded3a29e6891aba85459d600256cf317"
  else
    "0xa5409ec958c83c3f309868babaca7c86dcb077c1"

/-! ## The framework and the trace of a run -/

/-- The two contract abstractions of lines 1-2. -/
inductive Contract
  | FonkyBat
  | FonkyBatFactory
  deriving DecidableEq, Repr

/-- One interaction of the migration with the framework.

* `deploy c args gas` is `deployer.deploy(c, ...args, {gas: gas})`;
* `address c` is the read of the accessor property `c.address`;
* `deployed c` is `c.deployed()`;
* `transferOwnership h a` is `h.transferOwnership(a)` on the instance `h`. -/
inductive Action (η : Type)
  | deploy (c : Contract) (args : List String) (gas : Nat)
  | address (c : Contract)
  | deployed (c : Contract)
  | transferOwnership (handle : η) (newOwner : String)
  deriving DecidableEq, Repr

/-- A trace entry: the interaction and, when it failed, the error it threw. -/
structure Entry (ε η : Type) where
  action : Action η
  failure : Option ε
  deriving DecidableEq, Repr

/-- The framework as the migration sees it. Every operation takes the current
framework state, returns the next one, and either yields a value or throws. -/
structure Truffle (σ ε η : Type) where
  deploy : Contract → List String → Nat → σ → Except ε Unit × σ
  address : Contract → σ → Except ε String × σ
  deployed : Contract → σ → Except ε η × σ
  transferOwnership : η → String → σ → Except ε Unit × σ

/-- What a run leaves behind, finished or not: the value or the error it ends with, the
framework state and the interactions made so far, oldest first. -/
structure Outcome (σ ε η α : Type) where
  result : Except ε α
  state : σ
  trace : List (Entry ε η)

/-- A computation of the migration: from the framework state and the trace so
far to an outcome. -/
def Run (σ ε η α : Type) : Type :=
  σ → List (Entry ε η) → Outcome σ ε η α

/-- A computation that returns without touching the framework. -/
def Run.pure {σ ε η α : Type} (a : α) : Run σ ε η α :=
  fun s tr => ⟨.ok a, s, tr⟩

/-- Sequencing with `await` semantics: when the first computation throws, the
rest is not executed and the error is the error of the whole. -/
def Run.bind {σ ε η α β : Type} (x : Run σ ε η α) (f : α → Run σ ε η β) :
    Run σ ε η β :=
  fun s tr =>
    match x s tr with
    | ⟨.ok a, s1, tr1⟩ => f a s1 tr1
    | ⟨.error e, s1, tr1⟩ => ⟨.error e, s1, tr1⟩

instance {σ ε η : Type} : Monad (Run σ ε η) where
  pure := Run.pure
  bind := Run.bind

/-- One interaction: run the framework operation `op`, record `a` at the end of
the trace together with the error if it threw. -/
def perform {σ ε η α : Type} (a : Action η) (op : σ → Except ε α × σ) :
    Run σ ε η α :=
  fun s tr =>
    match op s with
    | (.ok x, s1) => ⟨.ok x, s1, tr ++ [⟨a, none⟩]⟩
    | (.error e, s1) => ⟨.error e, s1, tr ++ [⟨a, some e⟩]⟩

/-! ## The migration (lines 13-34) -/

/-- The exported function `async (deployer, network) => ...`, in the
environment `env`, against the framework `w`. -/
def migration {σ ε η : Type} (w : Truffle σ ε η) (env : ProcessEnv)
    (network : String) : Run σ ε η Unit := do
  let proxyRegistryAddress := proxyRegistryAddress network
  if truthy (DEPLOY_FONKYBATS env) then
    perform (.deploy .FonkyBat [proxyRegistryAddress] 5000000)
      (w.deploy .FonkyBat [proxyRegistryAddress] 5000000)
  if truthy (DEPLOY_FONKYBATS_SALE env) then
    let fonkyBatAddress ← perform (.address .FonkyBat) (w.address .FonkyBat)
    perform (.deploy .FonkyBatFactory [proxyRegistryAddress, fonkyBatAddress] 7000000)
      (w.deploy .FonkyBatFactory [proxyRegistryAddress, fonkyBatAddress] 7000000)
    let fonkybat ← perform (.deployed .FonkyBat) (w.deployed .FonkyBat)
    let factoryAddress ← perform (.address .FonkyBatFactory) (w.address .FonkyBatFactory)
    perform (.transferOwnership fonkybat factoryAddress)
      (w.transferOwnership fonkybat factoryAddress)

/-- A whole run of the migration from the framework state `s`. -/
def run {σ ε η : Type} (w : Truffle σ ε η) (env : ProcessEnv)
    (network : String) (s : σ) : Outcome σ ε η Unit :=
  migration w env network s []


/-! ## Observations on a trace -/

/-- Is the interaction a `deployer.deploy` of the contract `c`? -/
def Action.isDeployOf {η : Type} (c : Contract) : Action η → Bool
  | .deploy d _ _ => decide (d = c)
  | _ => false

/-- Is the interaction a `transferOwnership` call? -/
def Action.isTransferOwnership {η : Type} : Action η → Bool
  | .transferOwnership _ _ => true
  | _ => false

/-- Is the interaction the read of an `address` property (rather than one of
the calls `deploy`, `deployed()` and `transferOwnership`)? -/
def Action.isAddressRead {η : Type} : Action η → Bool
  | .address _ => true
  | _ => false

/-- The interactions of a trace, without their outcomes. -/
def actions {ε η : Type} (tr : List (Entry ε η)) : List (Action η) :=
  tr.map Entry.action

/-- The calls of a trace (`deploy`, `deployed()`, `transferOwnership`), in
order: its interactions without the property reads. -/
def calls {ε η : Type} (tr : List (Entry ε η)) : List (Action η) :=
  (actions tr).filter (fun a => !a.isAddressRead)

/-- The `deployer.deploy` calls of a trace that deploy the contract `c`. -/
def deploysOf {ε η : Type} (c : Contract) (tr : List (Entry ε η)) : List (Action η) :=
  (actions tr).filter (Action.isDeployOf c)

/-- The `transferOwnership` calls of a trace. -/
def transfers {ε η : Type} (tr : List (Entry ε η)) : List (Action η) :=
  (actions tr).filter Action.isTransferOwnership

/-- No interaction of the trace threw. -/
def noFailure {ε η : Type} (tr : List (Entry ε η)) : Prop :=
  ∀ e ∈ tr, e.failure = none

instance {ε η : Type} [DecidableEq ε] (tr : List (Entry ε η)) : Decidable (noFailure tr) :=
  inferInstanceAs (Decidable (∀ e ∈ tr, e.failure = none))

/-- No call of the trace (`deploy`, `deployed()`, `transferOwnership`) threw;
the reads of `address` are left out of account. -/
def noCallFailure {ε η : Type} (tr : List (Entry ε η)) : Prop :=
  ∀ e ∈ tr, e.action.isAddressRead = false → e.failure = none

instance {ε η : Type} [DecidableEq ε] (tr : List (Entry ε η)) : Decidable (noCallFailure tr) :=
  inferInstanceAs (Decidable (∀ e ∈ tr, e.action.isAddressRead = false → e.failure = none))

/-- No read of an `address` property in the trace threw: every address the run
asked for was resolvable. -/
def noReadFailure {ε η : Type} (tr : List (Entry ε η)) : Prop :=
  ∀ e ∈ tr, e.action.isAddressRead = true → e.failure = none

instance {ε η : Type} [DecidableEq ε] (tr : List (Entry ε η)) : Decidable (noReadFailure tr) :=
  inferInstanceAs (Decidable (∀ e ∈ tr, e.action.isAddressRead = true → e.failure = none))

/-! ## A concrete framework for the examples -/

/-- State of the example framework: the address recorded for each of the two
contracts, if any, and the owner `FonkyBat` was last transferred to. -/
structure SimState where
  fonkyBat : Option String
  factory : Option String
  owner : Option String
  deriving DecidableEq, Repr

/-- The example framework's `address` accessor: the recorded address, or an error
when the contract has none. -/
def simAddress (c : Contract) (s : SimState) : Except String String × SimState :=
  match c with
  | .FonkyBat =>
    match s.fonkyBat with
    | some a => (.ok a, s)
    | none => (.error "FonkyBat has no address", s)
  | .FonkyBatFactory =>
    match s.factory with
    | some a => (.ok a, s)
    | none => (.error "FonkyBatFactory has no address", s)

/-- The example framework. Deploying `FonkyBat` records the address `"0xBA7"` and
deploying `FonkyBatFactory` the address `"0xFAC"`, except that deploying the
contract `broken` throws `"out of gas"`. An instance is represented by its
address. -/
def simTruffle (broken : Option Contract) : Truffle SimState String String where
  deploy c _ _ s :=
    if broken = some c then (.error "out of gas", s)
    else
      match c with
      | .FonkyBat => (.ok (), ⟨some "0xBA7", s.factory, s.owner⟩)
      | .FonkyBatFactory => (.ok (), ⟨s.fonkyBat, some "0xFAC", s.owner⟩)
  address := simAddress
  deployed := simAddress
  transferOwnership _ newOwner s := (.ok (), ⟨s.fonkyBat, s.factory, some newOwner⟩)

/-- The example framework before anything was deployed. -/
def fresh : SimState :=
  ⟨none, none, none⟩

/-! ## Case analysis of a run -/

/-- The courses lines 30-32 can take from the framework state `s0` with the
trace `tr0`, for the proxy address `p`: each interaction either throws, which
ends the run, or yields the value the next one uses. -/
inductive SaleCourse {σ ε η : Type} (w : Truffle σ ε η) (p : String) (s0 : σ)
    (tr0 : List (Entry ε η)) : Outcome σ ε η Unit → Prop
  | batAddressThrew (e : ε) (s1 : σ)
      (h1 : w.address .FonkyBat s0 = (.error e, s1)) :
      SaleCourse w p s0 tr0 ⟨.error e, s1, tr0 ++ [⟨.address .FonkyBat, some e⟩]⟩
  | factoryDeployThrew (a : String) (s1 : σ) (e : ε) (s2 : σ)
      (h1 : w.address .FonkyBat s0 = (.ok a, s1))
      (h2 : w.deploy .FonkyBatFactory [p, a] 7000000 s1 = (.error e, s2)) :
      SaleCourse w p s0 tr0 ⟨.error e, s2, tr0 ++
        [⟨.address .FonkyBat, none⟩, ⟨.deploy .FonkyBatFactory [p, a] 7000000, some e⟩]⟩
  | deployedThrew (a : String) (s1 s2 : σ) (e : ε) (s3 : σ)
      (h1 : w.address .FonkyBat s0 = (.ok a, s1))
      (h2 : w.deploy .FonkyBatFactory [p, a] 7000000 s1 = (.ok (), s2))
      (h3 : w.deployed .FonkyBat s2 = (.error e, s3)) :
      SaleCourse w p s0 tr0 ⟨.error e, s3, tr0 ++
        [⟨.address .FonkyBat, none⟩, ⟨.deploy .FonkyBatFactory [p, a] 7000000, none⟩,
         ⟨.deployed .FonkyBat, some e⟩]⟩
  | factoryAddressThrew (a : String) (s1 s2 : σ) (h : η) (s3 : σ) (e : ε) (s4 : σ)
      (h1 : w.address .FonkyBat s0 = (.ok a, s1))
      (h2 : w.deploy .FonkyBatFactory [p, a] 7000000 s1 = (.ok (), s2))
      (h3 : w.deployed .FonkyBat s2 = (.ok h, s3))
      (h4 : w.address .FonkyBatFactory s3 = (.error e, s4)) :
      SaleCourse w p s0 tr0 ⟨.error e, s4, tr0 ++
        [⟨.address .FonkyBat, none⟩, ⟨.deploy .FonkyBatFactory [p, a] 7000000, none⟩,
         ⟨.deployed .FonkyBat, none⟩, ⟨.address .FonkyBatFactory, some e⟩]⟩
  | transferThrew (a : String) (s1 s2 : σ) (h : η) (s3 : σ) (f : String) (s4 : σ) (e : ε)
      (s5 : σ)
      (h1 : w.address .FonkyBat s0 = (.ok a, s1))
      (h2 : w.deploy .FonkyBatFactory [p, a] 7000000 s1 = (.ok (), s2))
      (h3 : w.deployed .FonkyBat s2 = (.ok h, s3))
      (h4 : w.address .FonkyBatFactory s3 = (.ok f, s4))
      (h5 : w.transferOwnership h f s4 = (.error e, s5)) :
      SaleCourse w p s0 tr0 ⟨.error e, s5, tr0 ++
        [⟨.address .FonkyBat, none⟩, ⟨.deploy .FonkyBatFactory [p, a] 7000000, none⟩,
         ⟨.deployed .FonkyBat, none⟩, ⟨.address .FonkyBatFactory, none⟩,
         ⟨.transferOwnership h f, some e⟩]⟩
  | transferred (a : String) (s1 s2 : σ) (h : η) (s3 : σ) (f : String) (s4 s5 : σ)
      (h1 : w.address .FonkyBat s0 = (.ok a, s1))
      (h2 : w.deploy .FonkyBatFactory [p, a] 7000000 s1 = (.ok (), s2))
      (h3 : w.deployed .FonkyBat s2 = (.ok h, s3))
      (h4 : w.address .FonkyBatFactory s3 = (.ok f, s4))
      (h5 : w.transferOwnership h f s4 = (.ok (), s5)) :
      SaleCourse w p s0 tr0 ⟨.ok (), s5, tr0 ++
        [⟨.address .FonkyBat, none⟩, ⟨.deploy .FonkyBatFactory [p, a] 7000000, none⟩,
         ⟨.deployed .FonkyBat, none⟩, ⟨.address .FonkyBatFactory, none⟩,
         ⟨.transferOwnership h f, none⟩]⟩

/-- The courses a whole run can take from the framework state `s`, by the two
gates and by the outcome of the base deployment. -/
inductive Course {σ ε η : Type} (w : Truffle σ ε η) (env : ProcessEnv) (network : String)
    (s : σ) : Outcome σ ε η Unit → Prop
  | nothing
      (hb : truthy (DEPLOY_FONKYBATS env) = false)
      (hs : truthy (DEPLOY_FONKYBATS_SALE env) = false) :
      Course w env network s ⟨.ok (), s, []⟩
  | baseThrew (e : ε) (s1 : σ)
      (hb : truthy (DEPLOY_FONKYBATS env) = true)
      (h0 : w.deploy .FonkyBat [proxyRegistryAddress network] 5000000 s = (.error e, s1)) :
      Course w env network s
        ⟨.error e, s1, [⟨.deploy .FonkyBat [proxyRegistryAddress network] 5000000, some e⟩]⟩
  | baseOnly (s1 : σ)
      (hb : truthy (DEPLOY_FONKYBATS env) = true)
      (hs : truthy (DEPLOY_FONKYBATS_SALE env) = false)
      (h0 : w.deploy .FonkyBat [proxyRegistryAddress network] 5000000 s = (.ok (), s1)) :
      Course w env network s
        ⟨.ok (), s1, [⟨.deploy .FonkyBat [proxyRegistryAddress network] 5000000, none⟩]⟩
  | saleOnly (o : Outcome σ ε η Unit)
      (hb : truthy (DEPLOY_FONKYBATS env) = false)
      (hs : truthy (DEPLOY_FONKYBATS_SALE env) = true)
      (hc : SaleCourse w (proxyRegistryAddress network) s [] o) :
      Course w env network s o
  | baseThenSale (s1 : σ) (o : Outcome σ ε η Unit)
      (hb : truthy (DEPLOY_FONKYBATS env) = true)
      (hs : truthy (DEPLOY_FONKYBATS_SALE env) = true)
      (h0 : w.deploy .FonkyBat [proxyRegistryAddress network] 5000000 s = (.ok (), s1))
      (hc : SaleCourse w (proxyRegistryAddress network) s1
        [⟨.deploy .FonkyBat [proxyRegistryAddress network] 5000000, none⟩] o) :
      Course w env network s o

/-! ## Basic lemmas -/

theorem bind_apply {σ ε η α β : Type} (x : Run σ ε η α) (f : α → Run σ ε η β) (s : σ)
    (tr : List (Entry ε η)) :
    (x >>= f) s tr =
      match x s tr with
      | ⟨.ok a, s1, tr1⟩ => f a s1 tr1
      | ⟨.error e, s1, tr1⟩ => ⟨.error e, s1, tr1⟩ :=
  rfl

theorem pure_apply {σ ε η α : Type} (a : α) (s : σ) (tr : List (Entry ε η)) :
    (pure a : Run σ ε η α) s tr = ⟨.ok a, s, tr⟩ :=
  rfl

theorem perform_ok {σ ε η α : Type} (a : Action η) {op : σ → Except ε α × σ} {s s1 : σ}
    {x : α} (tr : List (Entry ε η)) (h : op s = (.ok x, s1)) :
    perform a op s tr = ⟨.ok x, s1, tr ++ [⟨a, none⟩]⟩ := by
  simp [perform, h]

theorem perform_error {σ ε η α : Type} (a : Action η) {op : σ → Except ε α × σ} {s s1 : σ}
    {e : ε} (tr : List (Entry ε η)) (h : op s = (.error e, s1)) :
    perform a op s tr = ⟨.error e, s1, tr ++ [⟨a, some e⟩]⟩ := by
  simp [perform, h]

/-- Lines 30-32 take one of the courses of `SaleCourse`. -/
theorem sale_course {σ ε η : Type} (w : Truffle σ ε η) (p : String) (s0 : σ)
    (tr0 : List (Entry ε η)) :
    SaleCourse w p s0 tr0
      ((do
        let fonkyBatAddress ← perform (.address .FonkyBat) (w.address .FonkyBat)
        perform (.deploy .FonkyBatFactory [p, fonkyBatAddress] 7000000)
          (w.deploy .FonkyBatFactory [p, fonkyBatAddress] 7000000)
        let fonkybat ← perform (.deployed .FonkyBat) (w.deployed .FonkyBat)
        let factoryAddress ← perform (.address .FonkyBatFactory) (w.address .FonkyBatFactory)
        perform (.transferOwnership fonkybat factoryAddress)
          (w.transferOwnership fonkybat factoryAddress) : Run σ ε η Unit) s0 tr0) := by
  rcases h1 : w.address .FonkyBat s0 with ⟨e | a, s1⟩
  · simpa [bind_apply, perform_error _ _ h1] using SaleCourse.batAddressThrew e s1 h1
  rcases h2 : w.deploy .FonkyBatFactory [p, a] 7000000 s1 with ⟨e | _, s2⟩
  · simpa [bind_apply, perform_ok _ _ h1, perform_error _ _ h2] using
      SaleCourse.factoryDeployThrew a s1 e s2 h1 h2
  rcases h3 : w.deployed .FonkyBat s2 with ⟨e | h, s3⟩
  · simpa [bind_apply, perform_ok _ _ h1, perform_ok _ _ h2, perform_error _ _ h3] using
      SaleCourse.deployedThrew a s1 s2 e s3 h1 h2 h3
  rcases h4 : w.address .FonkyBatFactory s3 with ⟨e | f, s4⟩
  · simpa [bind_apply, perform_ok _ _ h1, perform_ok _ _ h2, perform_ok _ _ h3,
      perform_error _ _ h4] using SaleCourse.factoryAddressThrew a s1 s2 h s3 e s4 h1 h2 h3 h4
  rcases h5 : w.transferOwnership h f s4 with ⟨e | _, s5⟩
  · simpa [bind_apply, perform_ok _ _ h1, perform_ok _ _ h2, perform_ok _ _ h3,
      perform_ok _ _ h4, perform_error _ _ h5] using
      SaleCourse.transferThrew a s1 s2 h s3 f s4 e s5 h1 h2 h3 h4 h5
  · simpa [bind_apply, perform_ok _ _ h1, perform_ok _ _ h2, perform_ok _ _ h3,
      perform_ok _ _ h4, perform_ok _ _ h5] using
      SaleCourse.transferred a s1 s2 h s3 f s4 s5 h1 h2 h3 h4 h5

/-- Every run takes one of the courses of `Course`. -/
theorem run_course {σ ε η : Type} (w : Truffle σ ε η) (env : ProcessEnv) (network : String)
    (s : σ) : Course w env network s (run w env network s) := by
  have hsale := sale_course w (proxyRegistryAddress network)
  cases hb : truthy (DEPLOY_FONKYBATS env) <;> cases hs : truthy (DEPLOY_FONKYBATS_SALE env)
  · simpa [run, migration, hb, hs, bind_apply, pure_apply] using Course.nothing hb hs
  · simpa [run, migration, hb, hs, bind_apply, pure_apply] using
      Course.saleOnly _ hb hs (hsale s [])
  · rcases h0 : w.deploy .FonkyBat [proxyRegistryAddress network] 5000000 s with ⟨e | _, s1⟩
    · simpa [run, migration, hb, hs, bind_apply, pure_apply, perform_error _ _ h0] using
        Course.baseThrew e s1 hb h0
    · simpa [run, migration, hb, hs, bind_apply, pure_apply, perform_ok _ _ h0] using
        Course.baseOnly s1 hb hs h0
  · rcases h0 : w.deploy .FonkyBat [proxyRegistryAddress network] 5000000 s with ⟨e | _, s1⟩
    · simpa [run, migration, hb, hs, bind_apply, pure_apply, perform_error _ _ h0] using
        Course.baseThrew e s1 hb h0
    · simpa [run, migration, hb, hs, bind_apply, pure_apply, perform_ok _ _ h0] using
        Course.baseThenSale s1 _ hb hs h0 (hsale s1 _)

theorem truthy_none : truthy none = false :=
  rfl

theorem truthy_some (v : String) : truthy (some v) = decide (v ≠ "") :=
  rfl

theorem truthy_jsOr (a b : EnvValue) : truthy (jsOr a b) = (truthy a || truthy b) := by
  unfold jsOr
  cases h : truthy a <;> simp [h]

/-- A run depends on the environment only through the truthiness of the two
gates. -/
theorem run_congr {σ ε η : Type} (w : Truffle σ ε η) (env1 env2 : ProcessEnv)
    (network : String) (s : σ)
    (hb : truthy (DEPLOY_FONKYBATS env1) = truthy (DEPLOY_FONKYBATS env2))
    (hs : truthy (DEPLOY_FONKYBATS_SALE env1) = truthy (DEPLOY_FONKYBATS_SALE env2)) :
    run w env1 network s = run w env2 network s := by
  simp only [run, migration, hb, hs]

/-- The `deploy` calls for `FonkyBat` in a run: the one of line 25 when the base
gate is truthy, none otherwise; the framework has no say in it. -/
theorem deploysOf_fonkyBat {σ ε η : Type} (w : Truffle σ ε η) (env : ProcessEnv)
    (network : String) (s : σ) :
    deploysOf .FonkyBat (run w env network s).trace =
      if truthy (DEPLOY_FONKYBATS env) = true then
        [.deploy .FonkyBat [proxyRegistryAddress network] 5000000]
      else [] := by
  have hc := run_course w env network s
  generalize run w env network s = o at hc
  cases hc with
  | nothing hb hs => simp [hb, deploysOf, actions]
  | baseThrew e s1 hb h0 => simp [hb, deploysOf, actions, Action.isDeployOf]
  | baseOnly s1 hb hs h0 => simp [hb, deploysOf, actions, Action.isDeployOf]
  | saleOnly o hb hs hc => cases hc <;> simp [hb, deploysOf, actions, Action.isDeployOf]
  | baseThenSale s1 o hb hs h0 hc =>
    cases hc <;> simp [hb, deploysOf, actions, Action.isDeployOf]

/-- With a falsy factory gate lines 30-32 are skipped: nothing but the base
deployment, if any, is in the trace. -/
theorem sale_skipped {σ ε η : Type} (w : Truffle σ ε η) (env : ProcessEnv)
    (network : String) (s : σ) (hs : truthy (DEPLOY_FONKYBATS_SALE env) = false) :
    deploysOf .FonkyBatFactory (run w env network s).trace = [] ∧
    transfers (run w env network s).trace = [] ∧
    ∀ e ∈ (run w env network s).trace,
      e.action = .deploy .FonkyBat [proxyRegistryAddress network] 5000000 := by
  have hc := run_course w env network s
  generalize run w env network s = o at hc
  cases hc with
  | nothing => simp [deploysOf, transfers, actions]
  | baseThrew | baseOnly =>
    simp [deploysOf, transfers, actions, Action.isDeployOf, Action.isTransferOwnership]
  | saleOnly o hb hs2 hc => simp [hs] at hs2
  | baseThenSale s1 o hb hs2 h0 hc => simp [hs] at hs2

/-- Only the last interaction of a run can have thrown. -/
theorem failure_only_last {σ ε η : Type} (w : Truffle σ ε η) (env : ProcessEnv)
    (network : String) (s : σ) :
    ∀ e ∈ (run w env network s).trace.dropLast, e.failure = none := by
  have hc := run_course w env network s
  generalize run w env network s = o at hc
  cases hc with
  | nothing | baseThrew | baseOnly => simp
  | saleOnly o hb hs hc => cases hc <;> simp
  | baseThenSale s1 o hb hs h0 hc => cases hc <;> simp

/-- The result of a run is the outcome of its last interaction: the error this
one threw, or success when it did not throw or when there was none. -/
theorem result_eq_last {σ ε η : Type} (w : Truffle σ ε η) (env : ProcessEnv)
    (network : String) (s : σ) :
    (run w env network s).result =
      match (run w env network s).trace.getLast? with
      | none => .ok ()
      | some l =>
        match l.failure with
        | none => .ok ()
        | some err => .error err := by
  have hc := run_course w env network s
  generalize run w env network s = o at hc
  cases hc with
  | nothing | baseThrew | baseOnly => simp
  | saleOnly o hb hs hc => cases hc <;> simp
  | baseThenSale s1 o hb hs h0 hc => cases hc <;> simp

/-- A run succeeds exactly when none of its interactions threw. -/
theorem result_ok_iff {σ ε η : Type} (w : Truffle σ ε η) (env : ProcessEnv)
    (network : String) (s : σ) :
    (run w env network s).result = .ok () ↔ noFailure (run w env network s).trace := by
  have hc := run_course w env network s
  generalize run w env network s = o at hc
  cases hc with
  | nothing | baseThrew | baseOnly => simp [noFailure]
  | saleOnly o hb hs hc => cases hc <;> simp [noFailure]
  | baseThenSale s1 o hb hs h0 hc => cases hc <;> simp [noFailure]

/-- The course of a run whose factory gate is truthy and in which nothing threw:
the framework answers that fix its trace. The state `s1` is the one after the
base deployment when the base gate is truthy, and `s` itself otherwise. -/
theorem sale_success {σ ε η : Type} (w : Truffle σ ε η) (env : ProcessEnv)
    (network : String) (s : σ) (hs : truthy (DEPLOY_FONKYBATS_SALE env) = true)
    (hok : noFailure (run w env network s).trace) :
    ∃ (s1 : σ) (a : String) (s2 s3 : σ) (h : η) (s4 : σ) (f : String) (s5 s6 : σ),
      (if truthy (DEPLOY_FONKYBATS env) = true then
        w.deploy .FonkyBat [proxyRegistryAddress network] 5000000 s = (.ok (), s1)
       else s1 = s) ∧
      w.address .FonkyBat s1 = (.ok a, s2) ∧
      w.deploy .FonkyBatFactory [proxyRegistryAddress network, a] 7000000 s2 = (.ok (), s3) ∧
      w.deployed .FonkyBat s3 = (.ok h, s4) ∧
      w.address .FonkyBatFactory s4 = (.ok f, s5) ∧
      w.transferOwnership h f s5 = (.ok (), s6) ∧
      run w env network s = ⟨.ok (), s6,
        (if truthy (DEPLOY_FONKYBATS env) = true then
          [⟨.deploy .FonkyBat [proxyRegistryAddress network] 5000000, none⟩]
         else []) ++
        [⟨.address .FonkyBat, none⟩,
         ⟨.deploy .FonkyBatFactory [proxyRegistryAddress network, a] 7000000, none⟩,
         ⟨.deployed .FonkyBat, none⟩,
         ⟨.address .FonkyBatFactory, none⟩,
         ⟨.transferOwnership h f, none⟩]⟩ := by
  have hc := run_course w env network s
  generalize run w env network s = o at hc hok
  cases hc with
  | nothing hb hs2 => simp [hs] at hs2
  | baseThrew e s1 hb h0 => simp [noFailure] at hok
  | baseOnly s1 hb hs2 h0 => simp [hs] at hs2
  | saleOnly o hb hs2 hc =>
    cases hc with
    | transferred a s1 s2 h s3 f s4 s5 h1 h2 h3 h4 h5 =>
      exact ⟨s, a, s1, s2, h, s3, f, s4, s5, by simp [hb], h1, h2, h3, h4, h5, by simp [hb]⟩
    | _ => simp [noFailure] at hok
  | baseThenSale s0 o hb hs2 h0 hc =>
    cases hc with
    | transferred a s1 s2 h s3 f s4 s5 h1 h2 h3 h4 h5 =>
      exact ⟨s0, a, s1, s2, h, s3, f, s4, s5, by simp [hb, h0], h1, h2, h3, h4, h5,
        by simp [hb]⟩
    | _ => simp [noFailure] at hok

/-- The dependency of line 30 on an earlier deployment: with a falsy base gate
and a truthy factory gate, if the read of `FonkyBat.address` throws, the run ends
there with that error, before any call. -/
theorem sale_without_base_address {σ ε η : Type} (w : Truffle σ ε η) (env : ProcessEnv)
    (network : String) (s s1 : σ) (e : ε)
    (hb : truthy (DEPLOY_FONKYBATS env) = false)
    (hs : truthy (DEPLOY_FONKYBATS_SALE env) = true)
    (h : w.address .FonkyBat s = (.error e, s1)) :
    run w env network s = ⟨.error e, s1, [⟨.address .FonkyBat, some e⟩]⟩ := by
  simp [run, migration, hb, hs, bind_apply, pure_apply, perform_error _ _ h]

/-! ## C1: resolution of the proxy registry address -/

/-- Claim C1. The proxy registry address is a total two-way function of the
network: it is `0xf57b...f317` for `rinkeby` and `0xa540...77c1` for every other
network string, it is never empty, and it is the first constructor argument of
every `deploy` interaction of every run, whatever the framework does. -/
theorem C1_proxy_address_resolution (network : String) :
    (network = "rinkeby" →
      proxyRegistryAddress network = "0xf57b2c51ded3a29e6891aba85459d600256cf317") ∧
    (network ≠ "rinkeby" →
      proxyRegistryAddress network = "0xa5409ec958c83c3f309868babaca7c86dcb077c1") ∧
    proxyRegistryAddress network ≠ "" ∧
    (∀ (σ ε η : Type) (w : Truffle σ ε η) (env : ProcessEnv) (s : σ) (e : Entry ε η)
        (c : Contract) (args : List String) (gas : Nat),
      e ∈ (run w env network s).trace → e.action = .deploy c args gas →
        args.head? = some (proxyRegistryAddress network)) := by
  refine ⟨fun h => by simp [proxyRegistryAddress, h],
    fun h => by simp [proxyRegistryAddress, h], ?_, ?_⟩
  · unfold proxyRegistryAddress
    split <;> decide
  · intro σ ε η w env s e c args gas hmem hact
    have hc := run_course w env network s
    generalize run w env network s = o at hc hmem
    cases hc with
    | nothing => simp at hmem
    | baseThrew | baseOnly =>
      simp at hmem
      subst hmem
      simp at hact
      simp [← hact.2.1]
    | saleOnly o hb hs hc | baseThenSale s1 o hb hs h0 hc =>
      cases hc <;>
      · simp at hmem
        rcases hmem with rfl | rfl | rfl | rfl | rfl | rfl <;> simp at hact <;> simp [← hact.2.1]

/-- Claim C1 at the networks `rinkeby`, the empty string and a misspelling. -/
theorem C1_proxy_address_resolution_witness :
    proxyRegistryAddress "rinkeby" = "0xf57b2c51ded3a29e6891aba85459d600256cf317" ∧
    proxyRegistryAddress "" = "0xa5409ec958c83c3f309868babaca7c86dcb077c1" ∧
    proxyRegistryAddress "rinkebi" = "0xa5409ec958c83c3f309868babaca7c86dcb077c1" :=
  ⟨(C1_proxy_address_resolution "rinkeby").1 rfl,
    (C1_proxy_address_resolution "").2.1 (by decide),
    (C1_proxy_address_resolution "rinkebi").2.1 (by decide)⟩

/-! ## C3: fallback of the base-contract flag -/

/-- Claim C3. For every network and framework: when `DEPLOY_FONKYBATS` is unset
and `DEPLOY_ALL` is truthy the run makes the `deploy` call for `FonkyBat` (that
of line 25, once); when `DEPLOY_FONKYBATS` and `DEPLOY_ALL` are both unset or
falsy the run makes no `deploy` call for `FonkyBat`. -/
theorem C3_base_flag_fallback {σ ε η : Type} (w : Truffle σ ε η) (env : ProcessEnv)
    (network : String) (s : σ) :
    (env.DEPLOY_FONKYBATS = none → truthy env.DEPLOY_ALL = true →
      deploysOf .FonkyBat (run w env network s).trace =
        [.deploy .FonkyBat [proxyRegistryAddress network] 5000000]) ∧
    (truthy env.DEPLOY_FONKYBATS = false → truthy env.DEPLOY_ALL = false →
      deploysOf .FonkyBat (run w env network s).trace = []) := by
  refine ⟨fun hunset hall => ?_, fun hbat hall => ?_⟩
  · have hg : truthy (DEPLOY_FONKYBATS env) = true := by
      simp [DEPLOY_FONKYBATS, DEPLOY_ALL, truthy_jsOr, hall]
    simp [deploysOf_fonkyBat, hg]
  · have hg : truthy (DEPLOY_FONKYBATS env) = false := by
      simp [DEPLOY_FONKYBATS, DEPLOY_ALL, truthy_jsOr, hall, hbat]
    simp [deploysOf_fonkyBat, hg]

/-- Claim C3 on the example framework: with only `DEPLOY_ALL="1"` the base
contract is deployed, with `DEPLOY_ALL=""` and nothing else it is not. -/
theorem C3_base_flag_fallback_witness :
    deploysOf .FonkyBat (run (simTruffle none) ⟨some "1", none, none⟩ "mainnet" fresh).trace =
      [.deploy .FonkyBat [proxyRegistryAddress "mainnet"] 5000000] ∧
    deploysOf .FonkyBat (run (simTruffle none) ⟨some "", none, none⟩ "mainnet" fresh).trace =
      [] :=
  ⟨(C3_base_flag_fallback (simTruffle none) ⟨some "1", none, none⟩ "mainnet" fresh).1 rfl
      (by decide),
    (C3_base_flag_fallback (simTruffle none) ⟨some "", none, none⟩ "mainnet" fresh).2
      (by decide) (by decide)⟩

/-! ## C5: nothing enabled, nothing done -/

/-- Claim C5. Both gates are falsy exactly when `DEPLOY_ALL`, `DEPLOY_FONKYBATS`
and `DEPLOY_FONKYBATS_SALE` are all unset or falsy, and then, for every network
and framework, the run interacts with the framework not at all (empty trace,
framework state untouched) and completes successfully. -/
theorem C5_nothing_enabled {σ ε η : Type} (w : Truffle σ ε η) (env : ProcessEnv)
    (network : String) (s : σ) :
    ((truthy (DEPLOY_FONKYBATS env) = false ∧ truthy (DEPLOY_FONKYBATS_SALE env) = false) ↔
      (truthy env.DEPLOY_ALL = false ∧ truthy env.DEPLOY_FONKYBATS = false ∧
        truthy env.DEPLOY_FONKYBATS_SALE = false)) ∧
    (truthy (DEPLOY_FONKYBATS env) = false → truthy (DEPLOY_FONKYBATS_SALE env) = false →
      run w env network s = ⟨.ok (), s, []⟩) := by
  constructor
  · simp only [DEPLOY_FONKYBATS, DEPLOY_FONKYBATS_SALE, DEPLOY_ALL, truthy_jsOr]
    cases truthy env.DEPLOY_ALL <;> cases truthy env.DEPLOY_FONKYBATS <;>
      cases truthy env.DEPLOY_FONKYBATS_SALE <;> simp
  · intro hb hs
    have hc := run_course w env network s
    generalize run w env network s = o at hc
    cases hc with
    | nothing => rfl
    | baseThrew e s1 hb2 h0 => simp [hb] at hb2
    | baseOnly s1 hb2 hs2 h0 => simp [hb] at hb2
    | saleOnly o hb2 hs2 hc => simp [hs] at hs2
    | baseThenSale s1 o hb2 hs2 h0 hc => simp [hs] at hs2

/-- Claim C5 on `mainnet` with every variable unset, on the example framework. -/
theorem C5_nothing_enabled_witness :
    run (simTruffle none) ⟨none, none, none⟩ "mainnet" fresh = ⟨.ok (), fresh, []⟩ :=
  (C5_nothing_enabled (simTruffle none) ⟨none, none, none⟩ "mainnet" fresh).2 rfl rfl

/-! ## C6: fail-fast propagation -/

/-- Claim C6. For every input and every framework: if an interaction of the run
threw the error `err`, it is the last interaction of the run (nothing is called
after it, not even the same call again) and the run fails with `err` itself. -/
theorem C6_fail_fast {σ ε η : Type} (w : Truffle σ ε η) (env : ProcessEnv)
    (network : String) (s : σ) (pre post : List (Entry ε η)) (e : Entry ε η) (err : ε)
    (htrace : (run w env network s).trace = pre ++ e :: post)
    (hfail : e.failure = some err) :
    post = [] ∧ (run w env network s).result = .error err := by
  have hlast := failure_only_last w env network s
  have hres := result_eq_last w env network s
  rw [htrace] at hlast hres
  have hpost : post = [] := by
    cases post with
    | nil => rfl
    | cons x xs =>
      have hmem : e ∈ (pre ++ e :: x :: xs).dropLast := by
        rw [List.dropLast_append_of_ne_nil _ (by simp)]
        simp
      rw [hlast e hmem] at hfail
      cases hfail
  subst hpost
  refine ⟨rfl, ?_⟩
  rw [hres]
  simp [hfail]

/-- Claim C6 on the example framework in which the factory deployment runs out of
gas: the failed `deploy` is the last interaction and its error is the result. -/
theorem C6_fail_fast_witness :
    (run (simTruffle (some .FonkyBatFactory)) ⟨some "1", none, none⟩ "rinkeby" fresh).trace =
      [⟨.deploy .FonkyBat ["0xf57b2c51ded3a29e6891aba85459d600256cf317"] 5000000, none⟩,
       ⟨.address .FonkyBat, none⟩] ++
      ⟨.deploy .FonkyBatFactory ["0xf57b2c51ded3a29e6891aba85459d600256cf317", "0xBA7"]
        7000000, some "out of gas"⟩ :: [] ∧
    (run (simTruffle (some .FonkyBatFactory)) ⟨some "1", none, none⟩ "rinkeby" fresh).result =
      .error "out of gas" :=
  ⟨by decide,
    (C6_fail_fast (simTruffle (some .FonkyBatFactory)) ⟨some "1", none, none⟩ "rinkeby" fresh
      [⟨.deploy .FonkyBat ["0xf57b2c51ded3a29e6891aba85459d600256cf317"] 5000000, none⟩,
       ⟨.address .FonkyBat, none⟩]
      []
      ⟨.deploy .FonkyBatFactory ["0xf57b2c51ded3a29e6891aba85459d600256cf317", "0xBA7"]
        7000000, some "out of gas"⟩
      "out of gas" (by decide) rfl).2⟩

/-! ## C4: a truthy factory flag -/

/-- Claim C4, refuted as stated. On the example framework before anything was
deployed, with `DEPLOY_FONKYBATS_SALE="1"` and the two other variables unset,
line 24 is skipped and the read of `FonkyBat.address` among the arguments of
line 30 throws: the run makes no call at all, so no call fails, and yet there is
no `deploy` call for `FonkyBatFactory` and no `transferOwnership` call. -/
theorem C4_sale_flag_truthy_counterexample :
    truthy (⟨none, none, some "1"⟩ : ProcessEnv).DEPLOY_FONKYBATS_SALE = true ∧
    noCallFailure (run (simTruffle none) ⟨none, none, some "1"⟩ "rinkeby" fresh).trace ∧
    calls (run (simTruffle none) ⟨none, none, some "1"⟩ "rinkeby" fresh).trace = [] ∧
    (deploysOf .FonkyBatFactory
      (run (simTruffle none) ⟨none, none, some "1"⟩ "rinkeby" fresh).trace).length = 0 ∧
    (transfers (run (simTruffle none) ⟨none, none, some "1"⟩ "rinkeby" fresh).trace).length = 0 ∧
    (run (simTruffle none) ⟨none, none, some "1"⟩ "rinkeby" fresh).trace =
      [⟨.address .FonkyBat, some "FonkyBat has no address"⟩] ∧
    (run (simTruffle none) ⟨none, none, some "1"⟩ "rinkeby" fresh).result =
      .error "FonkyBat has no address" :=
  ⟨by decide, by decide, by decide, by decide, by decide, by decide, rfl⟩

/-- Claim C4, amended. For every network, framework and value of `DEPLOY_ALL` and
`DEPLOY_FONKYBATS`: when `DEPLOY_FONKYBATS_SALE` is truthy, no call of the run
threw and no read of `address` threw (the address of `FonkyBat` was resolvable
on line 30 and that of `FonkyBatFactory` on line 32), the run makes exactly one
`deploy` call for `FonkyBatFactory` and exactly one `transferOwnership` call,
the latter after the former. -/
theorem C4_sale_flag_truthy_amended {σ ε η : Type} (w : Truffle σ ε η) (env : ProcessEnv)
    (network : String) (s : σ) (hsale : truthy env.DEPLOY_FONKYBATS_SALE = true)
    (hcalls : noCallFailure (run w env network s).trace)
    (hreads : noReadFailure (run w env network s).trace) :
    (deploysOf .FonkyBatFactory (run w env network s).trace).length = 1 ∧
    (transfers (run w env network s).trace).length = 1 ∧
    ∃ (pre mid post : List (Entry ε η)) (d t : Entry ε η),
      (run w env network s).trace = pre ++ d :: (mid ++ t :: post) ∧
      d.action.isDeployOf .FonkyBatFactory = true ∧
      t.action.isTransferOwnership = true := by
  have hok : noFailure (run w env network s).trace := by
    intro e he
    cases hread : e.action.isAddressRead
    · exact hcalls e he hread
    · exact hreads e he hread
  have hs : truthy (DEPLOY_FONKYBATS_SALE env) = true := by
    simp [DEPLOY_FONKYBATS_SALE, truthy_jsOr, hsale]
  obtain ⟨s1, a, s2, s3, h, s4, f, s5, s6, -, -, -, -, -, -, hrun⟩ :=
    sale_success w env network s hs hok
  rw [hrun]
  refine ⟨?_, ?_, ?_⟩
  · cases truthy (DEPLOY_FONKYBATS env) <;> simp [deploysOf, actions, Action.isDeployOf]
  · cases truthy (DEPLOY_FONKYBATS env) <;>
      simp [transfers, actions, Action.isTransferOwnership]
  · exact ⟨(if truthy (DEPLOY_FONKYBATS env) = true then
        [⟨.deploy .FonkyBat [proxyRegistryAddress network] 5000000, none⟩]
       else []) ++ [⟨.address .FonkyBat, none⟩],
      [⟨.deployed .FonkyBat, none⟩, ⟨.address .FonkyBatFactory, none⟩], [],
      ⟨.deploy .FonkyBatFactory [proxyRegistryAddress network, a] 7000000, none⟩,
      ⟨.transferOwnership h f, none⟩, by simp, by simp [Action.isDeployOf],
      by simp [Action.isTransferOwnership]⟩

/-- Claim C4 as amended, on the example framework: with `DEPLOY_ALL` and
`DEPLOY_FONKYBATS` unset and `FonkyBat` deployed by an earlier run, and with
`DEPLOY_FONKYBATS="x"` on the framework before anything was deployed. -/
theorem C4_sale_flag_truthy_amended_witness :
    ((deploysOf .FonkyBatFactory
        (run (simTruffle none) ⟨none, none, some "true"⟩ "rinkeby"
          ⟨some "0xBA7", none, none⟩).trace).length = 1 ∧
      (transfers
        (run (simTruffle none) ⟨none, none, some "true"⟩ "rinkeby"
          ⟨some "0xBA7", none, none⟩).trace).length = 1) ∧
    ((deploysOf .FonkyBatFactory
        (run (simTruffle none) ⟨none, some "x", some "true"⟩ "rinkeby" fresh).trace).length = 1 ∧
      (transfers
        (run (simTruffle none) ⟨none, some "x", some "true"⟩ "rinkeby" fresh).trace).length = 1) :=
  have h1 := C4_sale_flag_truthy_amended (simTruffle none) ⟨none, none, some "true"⟩ "rinkeby"
    ⟨some "0xBA7", none, none⟩ (by decide) (by decide) (by decide)
  have h2 := C4_sale_flag_truthy_amended (simTruffle none) ⟨none, some "x", some "true"⟩
    "rinkeby" fresh (by decide) (by decide) (by decide)
  ⟨⟨h1.1, h1.2.1⟩, ⟨h2.1, h2.2.1⟩⟩

/-! ## C7: default of the factory flag -/

/-- Claim C7. When `DEPLOY_FONKYBATS_SALE` is unset the factory gate is
`DEPLOY_ALL`: with `DEPLOY_ALL` truthy a run in which nothing threw makes the
factory `deploy` call and the `transferOwnership` call (once each), and with
`DEPLOY_ALL` unset or falsy the run makes neither. In every run in which nothing
threw, whatever the environment, the factory is deployed if and only if
ownership is transferred. -/
theorem C7_factory_flag_default {σ ε η : Type} (w : Truffle σ ε η) (env : ProcessEnv)
    (network : String) (s : σ) :
    (env.DEPLOY_FONKYBATS_SALE = none →
      DEPLOY_FONKYBATS_SALE env = DEPLOY_ALL env ∧
      (truthy env.DEPLOY_ALL = true → noFailure (run w env network s).trace →
        (deploysOf .FonkyBatFactory (run w env network s).trace).length = 1 ∧
        (transfers (run w env network s).trace).length = 1) ∧
      (truthy env.DEPLOY_ALL = false →
        deploysOf .FonkyBatFactory (run w env network s).trace = [] ∧
        transfers (run w env network s).trace = [])) ∧
    (noFailure (run w env network s).trace →
      (deploysOf .FonkyBatFactory (run w env network s).trace = [] ↔
        transfers (run w env network s).trace = [])) := by
  have hrun : truthy (DEPLOY_FONKYBATS_SALE env) = true →
      noFailure (run w env network s).trace →
      (deploysOf .FonkyBatFactory (run w env network s).trace).length = 1 ∧
      (transfers (run w env network s).trace).length = 1 := by
    intro hs hok
    obtain ⟨s1, a, s2, s3, h, s4, f, s5, s6, -, -, -, -, -, -, hrun⟩ :=
      sale_success w env network s hs hok
    rw [hrun]
    cases truthy (DEPLOY_FONKYBATS env) <;>
      simp [deploysOf, transfers, actions, Action.isDeployOf, Action.isTransferOwnership]
  refine ⟨fun hunset => ?_, fun hok => ?_⟩
  · have hgate : DEPLOY_FONKYBATS_SALE env = DEPLOY_ALL env := by
      simp [DEPLOY_FONKYBATS_SALE, jsOr, hunset, truthy]
    refine ⟨hgate, fun hall hok => ?_, fun hall => ?_⟩
    · exact hrun (by rw [hgate]; exact hall) hok
    · have hskip := sale_skipped w env network s (by rw [hgate]; exact hall)
      exact ⟨hskip.1, hskip.2.1⟩
  · cases hs : truthy (DEPLOY_FONKYBATS_SALE env)
    · have hskip := sale_skipped w env network s hs
      simp [hskip.1, hskip.2.1]
    · have hlen := hrun hs hok
      constructor
      · intro hnil
        rw [hnil] at hlen
        simp at hlen
      · intro hnil
        rw [hnil] at hlen
        simp at hlen

/-- Claim C7 on the example framework: `DEPLOY_FONKYBATS_SALE` unset, with
`DEPLOY_ALL="1"` (factory deployed, ownership transferred) and with `DEPLOY_ALL`
unset (neither). -/
theorem C7_factory_flag_default_witness :
    ((deploysOf .FonkyBatFactory
        (run (simTruffle none) ⟨some "1", none, none⟩ "rinkeby" fresh).trace).length = 1 ∧
      (transfers
        (run (simTruffle none) ⟨some "1", none, none⟩ "rinkeby" fresh).trace).length = 1) ∧
    (deploysOf .FonkyBatFactory
        (run (simTruffle none) ⟨none, some "1", none⟩ "rinkeby" fresh).trace = [] ∧
      transfers (run (simTruffle none) ⟨none, some "1", none⟩ "rinkeby" fresh).trace = []) :=
  ⟨((C7_factory_flag_default (simTruffle none) ⟨some "1", none, none⟩ "rinkeby" fresh).1
      rfl).2.1 (by decide) (by decide),
    ((C7_factory_flag_default (simTruffle none) ⟨none, some "1", none⟩ "rinkeby" fresh).1
      rfl).2.2 (by decide)⟩

/-! ## C9: order and data flow of a full run -/

/-- Claim C9. For every network and framework, when both gates are truthy and no
interaction threw, the calls of the run are exactly, in this order: `deploy` of
`FonkyBat` with the resolved proxy address and gas 5000000; `deploy` of
`FonkyBatFactory` with that proxy address and the address `a` that
`FonkyBat.address` holds after the first deployment, and the higher gas
7000000; `FonkyBat.deployed()`, which yields the instance `h`;
`h.transferOwnership(f)` with `f` the address `FonkyBatFactory.address` holds
after the factory deployment. Besides these calls the trace holds only the two
reads of `address`, and the run succeeds. -/
theorem C9_full_run_order {σ ε η : Type} (w : Truffle σ ε η) (env : ProcessEnv)
    (network : String) (s : σ) (hbase : truthy (DEPLOY_FONKYBATS env) = true)
    (hsale : truthy (DEPLOY_FONKYBATS_SALE env) = true)
    (hok : noFailure (run w env network s).trace) :
    ∃ (s1 : σ) (a : String) (s2 s3 : σ) (h : η) (s4 : σ) (f : String) (s5 s6 : σ),
      w.deploy .FonkyBat [proxyRegistryAddress network] 5000000 s = (.ok (), s1) ∧
      w.address .FonkyBat s1 = (.ok a, s2) ∧
      w.deploy .FonkyBatFactory [proxyRegistryAddress network, a] 7000000 s2 = (.ok (), s3) ∧
      w.deployed .FonkyBat s3 = (.ok h, s4) ∧
      w.address .FonkyBatFactory s4 = (.ok f, s5) ∧
      w.transferOwnership h f s5 = (.ok (), s6) ∧
      calls (run w env network s).trace =
        [.deploy .FonkyBat [proxyRegistryAddress network] 5000000,
         .deploy .FonkyBatFactory [proxyRegistryAddress network, a] 7000000,
         .deployed .FonkyBat,
         .transferOwnership h f] ∧
      (run w env network s).trace =
        [⟨.deploy .FonkyBat [proxyRegistryAddress network] 5000000, none⟩,
         ⟨.address .FonkyBat, none⟩,
         ⟨.deploy .FonkyBatFactory [proxyRegistryAddress network, a] 7000000, none⟩,
         ⟨.deployed .FonkyBat, none⟩,
         ⟨.address .FonkyBatFactory, none⟩,
         ⟨.transferOwnership h f, none⟩] ∧
      (run w env network s).result = .ok () ∧
      (run w env network s).state = s6 ∧
      (5000000 : Nat) < 7000000 := by
  obtain ⟨s1, a, s2, s3, h, s4, f, s5, s6, h0, h1, h2, h3, h4, h5, hrun⟩ :=
    sale_success w env network s hsale hok
  simp only [hbase, if_true] at h0 hrun
  refine ⟨s1, a, s2, s3, h, s4, f, s5, s6, h0, h1, h2, h3, h4, h5, ?_, ?_, ?_, ?_, ?_⟩
  · rw [hrun]
    simp [calls, actions, Action.isAddressRead]
  · rw [hrun]
    simp
  · rw [hrun]
  · rw [hrun]
  · decide

/-- Claim C9 on the example framework, on `rinkeby` with `DEPLOY_ALL="yes"`. -/
theorem C9_full_run_order_witness :
    noFailure (run (simTruffle none) ⟨some "yes", none, none⟩ "rinkeby" fresh).trace ∧
    ∃ (a h f : String),
      calls (run (simTruffle none) ⟨some "yes", none, none⟩ "rinkeby" fresh).trace =
        [.deploy .FonkyBat [proxyRegistryAddress "rinkeby"] 5000000,
         .deploy .FonkyBatFactory [proxyRegistryAddress "rinkeby", a] 7000000,
         .deployed .FonkyBat,
         .transferOwnership h f] :=
  ⟨by decide,
    match C9_full_run_order (simTruffle none) ⟨some "yes", none, none⟩ "rinkeby" fresh
      (by decide) (by decide) (by decide) with
    | ⟨_, a, _, _, h, _, f, _, _, _, _, _, _, _, _, hcalls, _⟩ => ⟨a, h, f, hcalls⟩⟩

/-! ## C10: the flags are strings, tested for truthiness -/

/-- Claim C10. The flags are not parsed: for every non-empty string `v` (so also
`"false"` and `"0"`), with `DEPLOY_FONKYBATS=v` the run is the run with
`DEPLOY_FONKYBATS="true"` and makes the base `deploy` call whatever `DEPLOY_ALL`
is, and with `DEPLOY_FONKYBATS=""` the run is the run with the variable unset.
Likewise with `DEPLOY_FONKYBATS_SALE=v` the factory gate is truthy, the run is
the run with `DEPLOY_FONKYBATS_SALE="true"` and, if nothing threw, makes the
factory `deploy` call and the `transferOwnership` call, and with
`DEPLOY_FONKYBATS_SALE=""` the run is the run with the variable unset. -/
theorem C10_string_truthiness {σ ε η : Type} (w : Truffle σ ε η) (env : ProcessEnv)
    (network : String) (s : σ) (v : String) (hv : v ≠ "") :
    (deploysOf .FonkyBat
        (run w ⟨env.DEPLOY_ALL, some v, env.DEPLOY_FONKYBATS_SALE⟩ network s).trace =
      [.deploy .FonkyBat [proxyRegistryAddress network] 5000000] ∧
     run w ⟨env.DEPLOY_ALL, some v, env.DEPLOY_FONKYBATS_SALE⟩ network s =
      run w ⟨env.DEPLOY_ALL, some "true", env.DEPLOY_FONKYBATS_SALE⟩ network s ∧
     run w ⟨env.DEPLOY_ALL, some "", env.DEPLOY_FONKYBATS_SALE⟩ network s =
      run w ⟨env.DEPLOY_ALL, none, env.DEPLOY_FONKYBATS_SALE⟩ network s) ∧
    (truthy (DEPLOY_FONKYBATS_SALE ⟨env.DEPLOY_ALL, env.DEPLOY_FONKYBATS, some v⟩) = true ∧
     (noFailure (run w ⟨env.DEPLOY_ALL, env.DEPLOY_FONKYBATS, some v⟩ network s).trace →
      (deploysOf .FonkyBatFactory
        (run w ⟨env.DEPLOY_ALL, env.DEPLOY_FONKYBATS, some v⟩ network s).trace).length = 1 ∧
      (transfers
        (run w ⟨env.DEPLOY_ALL, env.DEPLOY_FONKYBATS, some v⟩ network s).trace).length = 1) ∧
     run w ⟨env.DEPLOY_ALL, env.DEPLOY_FONKYBATS, some v⟩ network s =
      run w ⟨env.DEPLOY_ALL, env.DEPLOY_FONKYBATS, some "true"⟩ network s ∧
     run w ⟨env.DEPLOY_ALL, env.DEPLOY_FONKYBATS, some ""⟩ network s =
      run w ⟨env.DEPLOY_ALL, env.DEPLOY_FONKYBATS, none⟩ network s) := by
  have hgate : truthy (DEPLOY_FONKYBATS_SALE
      ⟨env.DEPLOY_ALL, env.DEPLOY_FONKYBATS, some v⟩) = true := by
    simp [DEPLOY_FONKYBATS_SALE, truthy_jsOr, truthy_some, truthy_none, hv]
  refine ⟨⟨?_, ?_, ?_⟩, hgate, fun hok => ?_, ?_, ?_⟩
  · rw [deploysOf_fonkyBat]
    simp [DEPLOY_FONKYBATS, truthy_jsOr, truthy_some, truthy_none, hv]
  · apply run_congr <;>
      simp [DEPLOY_FONKYBATS, DEPLOY_FONKYBATS_SALE, DEPLOY_ALL, truthy_jsOr, truthy_some, truthy_none, hv]
  · apply run_congr <;>
      simp [DEPLOY_FONKYBATS, DEPLOY_FONKYBATS_SALE, DEPLOY_ALL, truthy_jsOr, truthy_some, truthy_none]
  · obtain ⟨s1, a, s2, s3, h, s4, f, s5, s6, -, -, -, -, -, -, hrun⟩ :=
      sale_success w _ network s hgate hok
    rw [hrun]
    cases truthy (DEPLOY_FONKYBATS ⟨env.DEPLOY_ALL, env.DEPLOY_FONKYBATS, some v⟩) <;>
      simp [deploysOf, transfers, actions, Action.isDeployOf, Action.isTransferOwnership]
  · apply run_congr <;>
      simp [DEPLOY_FONKYBATS, DEPLOY_FONKYBATS_SALE, DEPLOY_ALL, truthy_jsOr, truthy_some, truthy_none, hv]
  · apply run_congr <;>
      simp [DEPLOY_FONKYBATS, DEPLOY_FONKYBATS_SALE, DEPLOY_ALL, truthy_jsOr, truthy_some, truthy_none]

/-- Claim C10 on the example framework with the flag value `"false"`: with
`DEPLOY_FONKYBATS="false"` the base contract is deployed, and with
`DEPLOY_FONKYBATS_SALE="false"` the factory gate is truthy. -/
theorem C10_string_truthiness_witness :
    "false" ≠ "" ∧
    deploysOf .FonkyBat (run (simTruffle none) ⟨none, some "false", none⟩ "mainnet" fresh).trace =
      [.deploy .FonkyBat [proxyRegistryAddress "mainnet"] 5000000] ∧
    truthy (DEPLOY_FONKYBATS_SALE ⟨none, none, some "false"⟩) = true :=
  ⟨by decide,
    (C10_string_truthiness (simTruffle none) ⟨none, none, none⟩ "mainnet" fresh "false"
      (by decide)).1.1,
    (C10_string_truthiness (simTruffle none) ⟨none, none, none⟩ "mainnet" fresh "false"
      (by decide)).2.1⟩

/-! ## C2: the scenario of the specification -/

/-- Claim C2, refuted as stated. On the example framework, with network
`"testnet"`, `DEPLOY_ALL` unset, `DEPLOY_FONKYBATS="true"` and
`DEPLOY_FONKYBATS_SALE="true"`, nothing throws and the calls are the four
expected ones, but the constructor argument of the base deployment (and the
first one of the factory deployment) is the mainnet constant `0xa540...77c1`:
`"testnet"` is not `"rinkeby"`. No `deploy` call carries the rinkeby constant
`0xf57b...f317`. -/
theorem C2_scenario_testnet_counterexample :
    noFailure (run (simTruffle none) ⟨none, some "true", some "true"⟩ "testnet" fresh).trace ∧
    calls (run (simTruffle none) ⟨none, some "true", some "true"⟩ "testnet" fresh).trace =
      [.deploy .FonkyBat ["0xa5409ec958c83c3f309868babaca7c86dcb077c1"] 5000000,
       .deploy .FonkyBatFactory ["0xa5409ec958c83c3f309868babaca7c86dcb077c1", "0xBA7"]
         7000000,
       .deployed .FonkyBat,
       .transferOwnership "0xBA7" "0xFAC"] ∧
    deploysOf .FonkyBat
        (run (simTruffle none) ⟨none, some "true", some "true"⟩ "testnet" fresh).trace ≠
      [.deploy .FonkyBat ["0xf57b2c51ded3a29e6891aba85459d600256cf317"] 5000000] := by
  decide

/-- Claim C2, amended. With `DEPLOY_ALL` unset, `DEPLOY_FONKYBATS="true"` and
`DEPLOY_FONKYBATS_SALE="true"`, on every framework on which nothing throws, the
calls are exactly: one `deploy` of `FonkyBat` with the proxy address `p`, one
`deploy` of `FonkyBatFactory` with `p` and the address `a` of the deployed
`FonkyBat`, `FonkyBat.deployed()` and `h.transferOwnership(f)` on the instance
`h` it yields, with `f` the address of the deployed `FonkyBatFactory`; where `p`
is the mainnet constant `0xa540...77c1` on network `"testnet"` and the rinkeby
constant `0xf57b...f317` on network `"rinkeby"`. -/
theorem C2_scenario_amended {σ ε η : Type} (w : Truffle σ ε η) (s : σ)
    (network p : String)
    (hnet : network = "testnet" ∧ p = "0xa5409ec958c83c3f309868babaca7c86dcb077c1" ∨
      network = "rinkeby" ∧ p = "0xf57b2c51ded3a29e6891aba85459d600256cf317")
    (hok : noFailure (run w ⟨none, some "true", some "true"⟩ network s).trace) :
    ∃ (s1 : σ) (a : String) (s2 s3 : σ) (h : η) (s4 : σ) (f : String) (s5 : σ),
      w.deploy .FonkyBat [p] 5000000 s = (.ok (), s1) ∧
      w.address .FonkyBat s1 = (.ok a, s2) ∧
      w.deploy .FonkyBatFactory [p, a] 7000000 s2 = (.ok (), s3) ∧
      w.deployed .FonkyBat s3 = (.ok h, s4) ∧
      w.address .FonkyBatFactory s4 = (.ok f, s5) ∧
      calls (run w ⟨none, some "true", some "true"⟩ network s).trace =
        [.deploy .FonkyBat [p] 5000000,
         .deploy .FonkyBatFactory [p, a] 7000000,
         .deployed .FonkyBat,
         .transferOwnership h f] := by
  have hp : proxyRegistryAddress network = p := by
    rcases hnet with ⟨rfl, rfl⟩ | ⟨rfl, rfl⟩ <;> decide
  obtain ⟨s1, a, s2, s3, h, s4, f, s5, s6, h0, h1, h2, h3, h4, h5, hrun⟩ :=
    sale_success w ⟨none, some "true", some "true"⟩ network s (by decide) hok
  have hb : truthy (DEPLOY_FONKYBATS ⟨none, some "true", some "true"⟩) = true := by decide
  simp only [hb, if_true, hp] at h0 hrun h2
  refine ⟨s1, a, s2, s3, h, s4, f, s5, h0, h1, h2, h3, h4, ?_⟩
  rw [hrun]
  simp [calls, actions, Action.isAddressRead]

/-- Claim C2 as amended, on the example framework, on `"testnet"` and on
`"rinkeby"`. -/
theorem C2_scenario_amended_witness :
    (∃ (a h f : String),
      calls (run (simTruffle none) ⟨none, some "true", some "true"⟩ "testnet" fresh).trace =
        [.deploy .FonkyBat ["0xa5409ec958c83c3f309868babaca7c86dcb077c1"] 5000000,
         .deploy .FonkyBatFactory ["0xa5409ec958c83c3f309868babaca7c86dcb077c1", a] 7000000,
         .deployed .FonkyBat,
         .transferOwnership h f]) ∧
    (∃ (a h f : String),
      calls (run (simTruffle none) ⟨none, some "true", some "true"⟩ "rinkeby" fresh).trace =
        [.deploy .FonkyBat ["0xf57b2c51ded3a29e6891aba85459d600256cf317"] 5000000,
         .deploy .FonkyBatFactory ["0xf57b2c51ded3a29e6891aba85459d600256cf317", a] 7000000,
         .deployed .FonkyBat,
         .transferOwnership h f]) :=
  ⟨match C2_scenario_amended (simTruffle none) fresh "testnet"
      "0xa5409ec958c83c3f309868babaca7c86dcb077c1" (Or.inl ⟨rfl, rfl⟩) (by decide) with
    | ⟨_, a, _, _, h, _, f, _, _, _, _, _, _, hcalls⟩ => ⟨a, h, f, hcalls⟩,
   match C2_scenario_amended (simTruffle none) fresh "rinkeby"
      "0xf57b2c51ded3a29e6891aba85459d600256cf317" (Or.inr ⟨rfl, rfl⟩) (by decide) with
    | ⟨_, a, _, _, h, _, f, _, _, _, _, _, _, hcalls⟩ => ⟨a, h, f, hcalls⟩⟩

/-! ## C8: the factory flag and `DEPLOY_ALL` -/

/-- Claim C8, refuted as stated. The environments `DEPLOY_ALL="true"` and
`DEPLOY_ALL` unset, both with `DEPLOY_FONKYBATS` and `DEPLOY_FONKYBATS_SALE`
unset, agree on `DEPLOY_FONKYBATS_SALE` and differ only in `DEPLOY_ALL`, yet the
factory gate is truthy in the first and falsy in the second: on the example
framework the first run deploys the factory and transfers ownership, the second
does nothing. -/
theorem C8_sale_flag_independence_counterexample :
    (⟨some "true", none, none⟩ : ProcessEnv).DEPLOY_FONKYBATS_SALE =
      (⟨none, none, none⟩ : ProcessEnv).DEPLOY_FONKYBATS_SALE ∧
    (⟨some "true", none, none⟩ : ProcessEnv).DEPLOY_FONKYBATS =
      (⟨none, none, none⟩ : ProcessEnv).DEPLOY_FONKYBATS ∧
    truthy (DEPLOY_FONKYBATS_SALE ⟨some "true", none, none⟩) = true ∧
    truthy (DEPLOY_FONKYBATS_SALE ⟨none, none, none⟩) = false ∧
    calls (run (simTruffle none) ⟨some "true", none, none⟩ "rinkeby" fresh).trace =
      [.deploy .FonkyBat ["0xf57b2c51ded3a29e6891aba85459d600256cf317"] 5000000,
       .deploy .FonkyBatFactory ["0xf57b2c51ded3a29e6891aba85459d600256cf317", "0xBA7"]
         7000000,
       .deployed .FonkyBat,
       .transferOwnership "0xBA7" "0xFAC"] ∧
    (run (simTruffle none) ⟨none, none, none⟩ "rinkeby" fresh).trace = [] := by
  decide

/-- Claim C8, amended. Both specific flags fall back to `DEPLOY_ALL`. For two
environments that agree on `DEPLOY_FONKYBATS_SALE`: when that variable is set to
a non-empty string the factory gate is truthy in both, whatever `DEPLOY_ALL` is;
when it is unset or empty the factory gate of each is the truthiness of its own
`DEPLOY_ALL`. The base gate behaves the same way towards `DEPLOY_FONKYBATS`. -/
theorem C8_sale_flag_fallback_amended (env1 env2 : ProcessEnv)
    (hagree : env1.DEPLOY_FONKYBATS_SALE = env2.DEPLOY_FONKYBATS_SALE) :
    (truthy env1.DEPLOY_FONKYBATS_SALE = true →
      truthy (DEPLOY_FONKYBATS_SALE env1) = true ∧
      truthy (DEPLOY_FONKYBATS_SALE env2) = true) ∧
    (truthy env1.DEPLOY_FONKYBATS_SALE = false →
      truthy (DEPLOY_FONKYBATS_SALE env1) = truthy env1.DEPLOY_ALL ∧
      truthy (DEPLOY_FONKYBATS_SALE env2) = truthy env2.DEPLOY_ALL) ∧
    (truthy env1.DEPLOY_FONKYBATS = true → truthy (DEPLOY_FONKYBATS env1) = true) ∧
    (truthy env1.DEPLOY_FONKYBATS = false →
      truthy (DEPLOY_FONKYBATS env1) = truthy env1.DEPLOY_ALL) := by
  simp only [DEPLOY_FONKYBATS, DEPLOY_FONKYBATS_SALE, DEPLOY_ALL, truthy_jsOr, ← hagree]
  refine ⟨fun h => ?_, fun h => ?_, fun h => ?_, fun h => ?_⟩ <;> simp [h]

/-- Claim C8 as amended, on two environments with `DEPLOY_FONKYBATS_SALE="0"` that
differ in `DEPLOY_ALL`, and on two with `DEPLOY_FONKYBATS_SALE` unset. -/
theorem C8_sale_flag_fallback_amended_witness :
    (truthy (DEPLOY_FONKYBATS_SALE ⟨some "true", none, some "0"⟩) = true ∧
      truthy (DEPLOY_FONKYBATS_SALE ⟨none, none, some "0"⟩) = true) ∧
    (truthy (DEPLOY_FONKYBATS_SALE ⟨some "true", none, none⟩) = truthy (some "true") ∧
      truthy (DEPLOY_FONKYBATS_SALE ⟨none, none, none⟩) = truthy none) :=
  ⟨(C8_sale_flag_fallback_amended ⟨some "true", none, some "0"⟩ ⟨none, none, some "0"⟩
      rfl).1 (by decide),
    (C8_sale_flag_fallback_amended ⟨some "true", none, none⟩ ⟨none, none, none⟩
      rfl).2.1 (by decide)⟩

end FonkyBats
